import Mathlib

/-! Verification of orbit-network.

A shallow embedding of `cmd/orbit-network/main.c` and the properties its
specification states about it.

The program is straight-line C around four system calls.  The embedding keeps
the control flow of `main` and makes every interaction with the outside world
explicit:

* the operating system is a record `Sys σ` of functions on a state `σ`, one per
  system call the source issues, each returning the C return value and the next
  state;
* everything `main` does is appended to a trace of `Event`s (system calls with
  their arguments and return values, and lines written to standard error);
* `main` returns a `Run`: the exit status, the final system state and the trace.

Two systems are defined: `scripted`, which answers every call with a return
value fixed in advance (all combinations of outcomes), and `linux`, a small
model of files, descriptors, network namespaces and the mount stack.
-/

namespace OrbitNetwork

/-! ## Constants of the system headers -/

/-- Value of `O_RDWR` in `<fcntl.h>` (Linux generic ABI, octal 02). -/
def O_RDWR : Nat := 2

/-- Value of `O_CREAT` in `<fcntl.h>` (Linux generic ABI, octal 0100). -/
def O_CREAT : Nat := 64

/-- Value of `O_EXCL` in `<fcntl.h>` (Linux generic ABI, octal 0200). -/
def O_EXCL : Nat := 128

/-- Value of `O_TRUNC` in `<fcntl.h>` (Linux generic ABI, octal 01000). -/
def O_TRUNC : Nat := 512

/-- Mask of the access-mode bits of the open flags, `O_ACCMODE`. -/
def O_ACCMODE : Nat := 3

/-- Value of `CLONE_NEWNET` in `<sched.h>`. -/
def CLONE_NEWNET : Nat := 0x40000000

/-- Value of `MS_BIND` in `<sys/mount.h>`. -/
def MS_BIND : Nat := 4096

/-! ## Values, calls and traces -/

/-- A C `char *`: the null pointer (`none`) or a string. -/
abbrev CStr := Option String

/-- The system calls `main` issues, with their arguments as written in the source. -/
inductive Call where
  | open_ (path : CStr) (flags : Nat)
  | close (fd : Int)
  | unshare (flags : Nat)
  | mount (source : CStr) (target : CStr) (fstype : CStr) (flags : Nat) (data : CStr)
  deriving DecidableEq, Repr

/-- Which system call a `Call` is, without its arguments. -/
inductive Kind where
  | open_
  | close
  | unshare
  | mount
  deriving DecidableEq, Repr

/-- What a run does that the outside can observe, in program order. -/
inductive Event where
  | stderr (msg : String)
  | sys (call : Call) (ret : Int)
  deriving DecidableEq, Repr

/-- The operating system as `main` sees it: one function per system call of the
source (arguments as in the C prototype, result the C return value and the next
state), the value of `errno`, and libc's `strerror`. -/
structure Sys (σ : Type) where
  sysOpen : σ → CStr → Nat → Int × σ
  sysClose : σ → Int → Int × σ
  sysUnshare : σ → Nat → Int × σ
  sysMount : σ → CStr → CStr → CStr → Nat → CStr → Int × σ
  errno : σ → Int
  strerror : Int → String

/-- The result of running `main`: the value it returns (the exit status), the
state it leaves the system in, and everything it did. -/
structure Run (σ : Type) where
  status : Int
  final : σ
  trace : List Event

/-- The arguments of `main`.  `args` are the `argc` strings `argv[0]` to
`argv[argc-1]`; `argv[argc]` is the terminating null pointer.  The vector has
`argc + 1` entries; `past` is the pointer-sized word the process finds when it
indexes beyond them (on Linux the start of the environment vector, which follows
the argument vector on the initial stack). -/
structure Argv where
  args : List String
  past : CStr

/-- The `argc` parameter of `main`. -/
def Argv.argc (v : Argv) : Int := v.args.length

/-- The expression `argv[i]`. -/
def Argv.get (v : Argv) (i : Nat) : CStr :=
  if i ≤ v.args.length then v.args[i]? else v.past

/-- Index `i` lies inside the argument vector, which has `argc + 1` entries. -/
abbrev Argv.inVector (v : Argv) (i : Nat) : Prop := (i : Int) < v.argc + 1

/-- The line written when the argument count is not 2 (source line 43). -/
def usageMsg : String := "no path specified\n"

/-- The line written when `unshare` or `mount` fails (source lines 52 and 56):
the format `"%s: clone failed"` applied to `strerror(errno)`. -/
def cloneFailedMsg (description : String) : String := description ++ ": clone failed"

/-- The flags `main` passes to `open` (source line 46). -/
def openFlags : Nat := O_RDWR ||| O_CREAT

/-- The source of the bind mount (source line 55). -/
def nsSelf : String := "/proc/self/ns/net"

/-! ## The program -/

/-- The function `main` of `cmd/orbit-network/main.c`, lines 40 to 60. -/
def main {σ : Type} (K : Sys σ) (s0 : σ) (v : Argv) : Run σ :=
  let t0 : List Event := if v.argc ≠ 2 then [Event.stderr usageMsg] else []
  let path : CStr := v.get 1
  let o := K.sysOpen s0 path openFlags
  let f := o.1
  let t1 := t0 ++ [Event.sys (Call.open_ path openFlags) f]
  if f < 0 then
    { status := 1, final := o.2, trace := t1 }
  else
    let c := K.sysClose o.2 f
    let t2 := t1 ++ [Event.sys (Call.close f) c.1]
    let u := K.sysUnshare c.2 CLONE_NEWNET
    let t3 := t2 ++ [Event.sys (Call.unshare CLONE_NEWNET) u.1]
    if u.1 ≠ 0 then
      { status := 1, final := u.2,
        trace := t3 ++ [Event.stderr (cloneFailedMsg (K.strerror (K.errno u.2)))] }
    else
      let m := K.sysMount u.2 (some nsSelf) path (some "none") MS_BIND none
      let t4 := t3 ++ [Event.sys (Call.mount (some nsSelf) path (some "none") MS_BIND none) m.1]
      if m.1 ≠ 0 then
        { status := 1, final := m.2,
          trace := t4 ++ [Event.stderr (cloneFailedMsg (K.strerror (K.errno m.2)))] }
      else
        { status := 0, final := m.2, trace := t4 }

/-! ## Observations on a trace -/

/-- The kind of a call. -/
def Call.kind : Call → Kind
  | Call.open_ _ _ => Kind.open_
  | Call.close _ => Kind.close
  | Call.unshare _ => Kind.unshare
  | Call.mount _ _ _ _ _ => Kind.mount

/-- The system calls of a trace with their return values, in order. -/
def calls : List Event → List (Call × Int)
  | [] => []
  | Event.sys c r :: t => (c, r) :: calls t
  | Event.stderr _ :: t => calls t

/-- The lines written to standard error, in order. -/
def stderrOf : List Event → List String
  | [] => []
  | Event.stderr m :: t => m :: stderrOf t
  | Event.sys _ _ :: t => stderrOf t

/-- The kinds of the system calls of a trace, in order. -/
def kinds (t : List Event) : List Kind := (calls t).map fun c => c.1.kind

/-! ## The scripted system: every combination of outcomes -/

/-- Return values fixed in advance for the four calls, the `errno` each call
sets when it reports an error, and libc's table of error descriptions. -/
structure Outcomes where
  openRet : Int
  closeRet : Int
  unshareRet : Int
  mountRet : Int
  openErrno : Int
  closeErrno : Int
  unshareErrno : Int
  mountErrno : Int
  strerror : Int → String

/-- The libc convention for `errno`: a call that returns `-1` stores its error
number, any other return leaves `errno` as it was. -/
def setErrno (ret err old : Int) : Int := if ret = -1 then err else old

/-- The system that answers each call with the scripted return value, whatever
the arguments.  Its state is the current value of `errno`. -/
def scripted (o : Outcomes) : Sys Int where
  sysOpen e _ _ := (o.openRet, setErrno o.openRet o.openErrno e)
  sysClose e _ := (o.closeRet, setErrno o.closeRet o.closeErrno e)
  sysUnshare e _ := (o.unshareRet, setErrno o.unshareRet o.unshareErrno e)
  sysMount e _ _ _ _ _ := (o.mountRet, setErrno o.mountRet o.mountErrno e)
  errno e := e
  strerror := o.strerror


/-! ## A model of the Linux side: files, descriptors, namespaces, mounts -/

/-- Value of `O_RDONLY`. -/
def O_RDONLY : Nat := 0

/-- Value of `O_WRONLY`. -/
def O_WRONLY : Nat := 1

/-- Error number `EPERM`. -/
def EPERM : Int := 1

/-- Error number `ENOENT`. -/
def ENOENT : Int := 2

/-- Error number `EBADF`. -/
def EBADF : Int := 9

/-- Error number `EACCES`. -/
def EACCES : Int := 13

/-- Error number `EFAULT`. -/
def EFAULT : Int := 14

/-- Error number `EEXIST`. -/
def EEXIST : Int := 17

/-- Error number `ENODEV`. -/
def ENODEV : Int := 19

/-- Error number `ENOTDIR`. -/
def ENOTDIR : Int := 20

/-- Error number `EISDIR`. -/
def EISDIR : Int := 21

/-- Error number `EINVAL`. -/
def EINVAL : Int := 22

/-- A regular file: its bytes and what the calling process may do with it. -/
structure File where
  content : List Nat
  mayRead : Bool
  mayWrite : Bool
  deriving DecidableEq, Repr

/-- What a path names. -/
inductive Node where
  | file (f : File)
  | dir
  deriving DecidableEq, Repr

/-- The part of the kernel state the four calls read or change.

* `nodes`: what each path names (the first entry for a path counts);
* `creatable`: the paths at which the caller may create a file (the parent
  directory exists and is writable);
* `newRead`, `newWrite`: the permissions a file created by `open` gets.  The
  source passes no mode argument with `O_CREAT`, so they are whatever the kernel
  finds in the third argument register: an input, not a constant;
* `fds`: the descriptors open in the process;
* `privileged`: the process holds `CAP_SYS_ADMIN`;
* `curNs`: the network namespace the process is in;
* `mounts`: the namespace bind mounts, the most recent first, each a target
  path and the namespace it refers to;
* `errno`: the value of `errno`. -/
structure Kernel where
  nodes : List (String × Node)
  creatable : List String
  newRead : Bool
  newWrite : Bool
  fds : List Int
  privileged : Bool
  curNs : Nat
  mounts : List (String × Nat)
  errno : Int
  deriving DecidableEq, Repr

/-- What path `p` names, if anything. -/
def Kernel.lookup (k : Kernel) (p : String) : Option Node := k.nodes.lookup p

/-- A failed call: `-1` is returned and `errno` is set. -/
def Kernel.fail (k : Kernel) (e : Int) : Int × Kernel := (-1, { k with errno := e })

/-- The lowest descriptor number not in use. -/
def Kernel.freeFd (k : Kernel) : Nat :=
  ((List.range (k.fds.length + 1)).find? fun n => !k.fds.contains (Int.ofNat n)).getD
    k.fds.length

/-- The namespaces the state refers to: the caller's and every mounted one. -/
def Kernel.usedNs (k : Kernel) : List Nat := k.curNs :: k.mounts.map Prod.snd

/-- The identifier of the next namespace the kernel allocates: one not referred
to anywhere in the state. -/
def Kernel.freshNs (k : Kernel) : Nat := k.usedNs.foldr max 0 + 1

/-- The namespaces mounted at path `p`, the top-most first. -/
def Kernel.mountedAt (k : Kernel) (p : String) : List Nat :=
  (k.mounts.filter fun m => m.1 == p).map Prod.snd

/-- The namespace a lookup of `p` reaches: the top of the mount stack at `p`. -/
def Kernel.topMount (k : Kernel) (p : String) : Option Nat := (k.mountedAt p).head?

/-- The flags ask for read access. -/
def wantsRead (flags : Nat) : Bool :=
  flags &&& O_ACCMODE == O_RDONLY || flags &&& O_ACCMODE == O_RDWR

/-- The flags ask for write access. -/
def wantsWrite (flags : Nat) : Bool :=
  flags &&& O_ACCMODE == O_WRONLY || flags &&& O_ACCMODE == O_RDWR

/-- Model of `open(path, flags)` after open(2): a null path is `EFAULT`; an
existing file fails with `EEXIST` under `O_CREAT | O_EXCL`, with `EACCES` when
the access mode is not permitted, and is emptied under `O_TRUNC` with write
access; a directory cannot be opened for writing or created over; a missing
path is created under `O_CREAT` when the caller may create it.  Resource limits
(descriptor table, memory) are not modelled. -/
def linuxOpen (k : Kernel) (path : CStr) (flags : Nat) : Int × Kernel :=
  match path with
  | none => k.fail EFAULT
  | some p =>
    match k.lookup p with
    | some Node.dir =>
      if wantsWrite flags || flags &&& O_CREAT != 0 then k.fail EISDIR
      else ((k.freeFd : Int), { k with fds := (k.freeFd : Int) :: k.fds })
    | some (Node.file f) =>
      if flags &&& O_CREAT != 0 && flags &&& O_EXCL != 0 then k.fail EEXIST
      else if (wantsRead flags && !f.mayRead) || (wantsWrite flags && !f.mayWrite) then
        k.fail EACCES
      else if flags &&& O_TRUNC != 0 && wantsWrite flags then
        ((k.freeFd : Int),
          { k with nodes := (p, Node.file { f with content := [] }) :: k.nodes,
                   fds := (k.freeFd : Int) :: k.fds })
      else ((k.freeFd : Int), { k with fds := (k.freeFd : Int) :: k.fds })
    | none =>
      if flags &&& O_CREAT != 0 then
        if p ∈ k.creatable then
          ((k.freeFd : Int),
            { k with nodes := (p, Node.file ⟨[], k.newRead, k.newWrite⟩) :: k.nodes,
                     fds := (k.freeFd : Int) :: k.fds })
        else k.fail ENOENT
      else k.fail ENOENT

/-- Model of `close(fd)`: releases an open descriptor, `EBADF` otherwise. -/
def linuxClose (k : Kernel) (fd : Int) : Int × Kernel :=
  if fd ∈ k.fds then (0, { k with fds := k.fds.erase fd }) else k.fail EBADF

/-- Model of `unshare(flags)` after unshare(2), for the network namespace: it
needs `CAP_SYS_ADMIN`; with `CLONE_NEWNET` the kernel allocates a namespace and
moves the calling process into it.  Other flag sets are outside the model and
rejected with `EINVAL`. -/
def linuxUnshare (k : Kernel) (flags : Nat) : Int × Kernel :=
  if !k.privileged then k.fail EPERM
  else if flags = CLONE_NEWNET then (0, { k with curNs := k.freshNs })
  else k.fail EINVAL

/-- Model of `mount(source, target, fstype, flags, data)` after mount(2), for a
bind mount of the caller's namespace reference: it needs `CAP_SYS_ADMIN`, both
paths non-null, `MS_BIND`, and a target that names an existing file; the mount
is put on top of whatever is mounted at the target and refers to the namespace
the caller is in at that moment.  The only source the model resolves is
`/proc/self/ns/net`. -/
def linuxMount (k : Kernel) (source target _fstype : CStr) (flags : Nat) (_data : CStr) :
    Int × Kernel :=
  if !k.privileged then k.fail EPERM
  else
    match source, target with
    | some src, some tgt =>
      if flags &&& MS_BIND = 0 then k.fail ENODEV
      else if src ≠ nsSelf then k.fail ENOENT
      else
        match k.lookup tgt with
        | none => k.fail ENOENT
        | some Node.dir => k.fail ENOTDIR
        | some (Node.file _) => (0, { k with mounts := (tgt, k.curNs) :: k.mounts })
    | _, _ => k.fail EFAULT

/-- The descriptions `strerror` gives for the error numbers of the model. -/
def linuxStrerror (e : Int) : String :=
  if e = EPERM then "Operation not permitted"
  else if e = ENOENT then "No such file or directory"
  else if e = EBADF then "Bad file descriptor"
  else if e = EACCES then "Permission denied"
  else if e = EFAULT then "Bad address"
  else if e = EEXIST then "File exists"
  else if e = ENODEV then "No such device"
  else if e = ENOTDIR then "Not a directory"
  else if e = EISDIR then "Is a directory"
  else if e = EINVAL then "Invalid argument"
  else "Unknown error"

/-- The modelled Linux system. -/
def linux : Sys Kernel where
  sysOpen := linuxOpen
  sysClose := linuxClose
  sysUnshare := linuxUnshare
  sysMount := linuxMount
  errno k := k.errno
  strerror := linuxStrerror

/-- A privileged process in namespace 1 with an empty `/run`. -/
def freshHost : Kernel where
  nodes := [("/run", Node.dir)]
  creatable := ["/run/ns0", "/run/ns1"]
  newRead := true
  newWrite := false
  fds := [0, 1, 2]
  privileged := true
  curNs := 1
  mounts := []
  errno := 0

/-- The invocation `orbit-network <path>`. -/
def invoke (path : String) : Argv := { args := ["orbit-network", path], past := none }

/-! ## Predicates on call sequences -/

/-- The order in which the source issues its system calls. -/
def programOrder : List Kind := [Kind.open_, Kind.close, Kind.unshare, Kind.mount]

/-- A call reported an error: `open` returned a negative value, or `close`,
`unshare` or `mount` returned something other than 0. -/
def failed : Call × Int → Bool
  | (Call.open_ _ _, r) => decide (r < 0)
  | (_, r) => decide (r ≠ 0)

/-- A call whose result the source tests reported an error: as `failed`, but
`close`, whose return value the source discards, never counts. -/
def failedChecked : Call × Int → Bool
  | (Call.close _, _) => false
  | c => failed c

/-- In the sequence `l`, no call follows one that `bad` singles out. -/
def noCallAfter (bad : Call × Int → Bool) : List (Call × Int) → Bool
  | [] => true
  | c :: rest => (!bad c || rest.isEmpty) && noCallAfter bad rest

/-- Outcomes in which every call succeeds, `open` returning descriptor 3. -/
def allSucceed : Outcomes where
  openRet := 3
  closeRet := 0
  unshareRet := 0
  mountRet := 0
  openErrno := 0
  closeErrno := 0
  unshareErrno := 0
  mountErrno := 0
  strerror := linuxStrerror

/-- The invocation `orbit-network /run/ns0 /run/ns1`, one argument too many. -/
def twoPaths : Argv := { args := ["orbit-network", "/run/ns0", "/run/ns1"], past := none }

/-- The invocation `orbit-network`, without a path. -/
def noPath : Argv := { args := ["orbit-network"], past := none }

/-- Outcomes in which `close` reports an error (`EIO`) and the other calls succeed. -/
def closeFails : Outcomes := { allSucceed with closeRet := -1, closeErrno := 5 }

/-- A privileged process in namespace 1 on a host where `/run/ns0` already is a
readable and writable regular file of three bytes, with namespace 7 mounted on it. -/
def hostWithMount : Kernel where
  nodes := [("/run/ns0", Node.file ⟨[110, 115, 48], true, true⟩), ("/run", Node.dir)]
  creatable := ["/run/ns1"]
  newRead := true
  newWrite := true
  fds := [0, 1, 2]
  privileged := true
  curNs := 1
  mounts := [("/run/ns0", 7)]
  errno := 0

/-! ## Exit status -/

/-- C1. For every argument vector and every combination of return values of
`open`, `unshare` and `mount`, `main` returns 0 exactly when `open` returned a
non-negative descriptor, `unshare` returned 0 and `mount` returned 0, and it
returns 1 exactly when that is not the case; no other status is produced. -/
theorem main_status_iff (v : Argv) (o : Outcomes) (e0 : Int) :
    ((main (scripted o) e0 v).status = 0 ↔
        (0 ≤ o.openRet ∧ o.unshareRet = 0 ∧ o.mountRet = 0)) ∧
    ((main (scripted o) e0 v).status = 1 ↔
        ¬ (0 ≤ o.openRet ∧ o.unshareRet = 0 ∧ o.mountRet = 0)) := by
  unfold main
  simp only [scripted]
  split_ifs with h1 h2 h3 <;> simp_all


/-- The diagnostic of lines 52 and 56 is never the usage line: it ends in `d`,
the usage line in a newline. -/
theorem cloneFailedMsg_ne_usageMsg (d : String) : cloneFailedMsg d ≠ usageMsg := by
  intro h
  have h2 := congrArg (fun s => s.data.getLast?) h
  simp [cloneFailedMsg, usageMsg] at h2

/-- C2. When `open` returns a negative value, `main` returns 1 at once: the
`open` is the last thing the run does (nothing but the usage line, if any,
precedes it and nothing follows), so neither `unshare` nor `mount` is invoked. -/
theorem open_failure_stops (v : Argv) (o : Outcomes) (e0 : Int) (h : o.openRet < 0) :
    (main (scripted o) e0 v).status = 1 ∧
    (main (scripted o) e0 v).trace =
      (if v.argc ≠ 2 then [Event.stderr usageMsg] else []) ++
        [Event.sys (Call.open_ (v.get 1) openFlags) o.openRet] ∧
    kinds (main (scripted o) e0 v).trace = [Kind.open_] ∧
    Kind.unshare ∉ kinds (main (scripted o) e0 v).trace ∧
    Kind.mount ∉ kinds (main (scripted o) e0 v).trace := by
  unfold main
  simp only [scripted]
  split_ifs <;> simp_all [kinds, calls, Call.kind]

/-- Witness of `open_failure_stops`: `open` fails with `ENOENT`. -/
theorem open_failure_stops_witness :
    (-1 : Int) < 0 ∧
    (main (scripted { allSucceed with openRet := -1, openErrno := ENOENT }) 0
        (invoke "/nonexistent/ns")).status = 1 ∧
    (main (scripted { allSucceed with openRet := -1, openErrno := ENOENT }) 0
        (invoke "/nonexistent/ns")).trace =
      (if (invoke "/nonexistent/ns").argc ≠ 2 then [Event.stderr usageMsg] else []) ++
        [Event.sys (Call.open_ ((invoke "/nonexistent/ns").get 1) openFlags) (-1)] ∧
    kinds (main (scripted { allSucceed with openRet := -1, openErrno := ENOENT }) 0
        (invoke "/nonexistent/ns")).trace = [Kind.open_] ∧
    Kind.unshare ∉ kinds (main (scripted { allSucceed with openRet := -1, openErrno := ENOENT }) 0
        (invoke "/nonexistent/ns")).trace ∧
    Kind.mount ∉ kinds (main (scripted { allSucceed with openRet := -1, openErrno := ENOENT }) 0
        (invoke "/nonexistent/ns")).trace :=
  ⟨by decide,
    open_failure_stops (invoke "/nonexistent/ns")
      { allSucceed with openRet := -1, openErrno := ENOENT } 0 (by decide)⟩

/-- C3. When `open` succeeds and `unshare` returns non-zero, `main` returns 1
and the run is exactly: the usage line if any, `open`, `close` of the
descriptor, `unshare`, one diagnostic line.  After the `open` nothing but the
`close` and the `unshare` reaches the system: `mount` is not invoked and no
call that removes or changes the file is made. -/
theorem unshare_failure_leaves_file (v : Argv) (o : Outcomes) (e0 : Int)
    (hopen : 0 ≤ o.openRet) (hunshare : o.unshareRet ≠ 0) :
    (main (scripted o) e0 v).status = 1 ∧
    (∃ msg, (main (scripted o) e0 v).trace =
      (if v.argc ≠ 2 then [Event.stderr usageMsg] else []) ++
        [Event.sys (Call.open_ (v.get 1) openFlags) o.openRet,
         Event.sys (Call.close o.openRet) o.closeRet,
         Event.sys (Call.unshare CLONE_NEWNET) o.unshareRet,
         Event.stderr msg]) ∧
    kinds (main (scripted o) e0 v).trace = [Kind.open_, Kind.close, Kind.unshare] ∧
    Kind.mount ∉ kinds (main (scripted o) e0 v).trace := by
  unfold main
  simp only [scripted]
  split_ifs <;> simp_all [kinds, calls, Call.kind] <;> omega

/-- Witness of `unshare_failure_leaves_file`: `unshare` fails with `EPERM`. -/
theorem unshare_failure_leaves_file_witness :
    (main (scripted { allSucceed with unshareRet := -1, unshareErrno := EPERM }) 0
        (invoke "/run/ns0")).trace =
      [Event.sys (Call.open_ (some "/run/ns0") openFlags) 3,
       Event.sys (Call.close 3) 0,
       Event.sys (Call.unshare CLONE_NEWNET) (-1),
       Event.stderr "Operation not permitted: clone failed"] ∧
    (main (scripted { allSucceed with unshareRet := -1, unshareErrno := EPERM }) 0
        (invoke "/run/ns0")).status = 1 ∧
    Kind.mount ∉ kinds (main (scripted { allSucceed with unshareRet := -1, unshareErrno := EPERM })
        0 (invoke "/run/ns0")).trace :=
  ⟨by decide,
    (unshare_failure_leaves_file (invoke "/run/ns0")
      { allSucceed with unshareRet := -1, unshareErrno := EPERM } 0 (by decide) (by decide)).1,
    (unshare_failure_leaves_file (invoke "/run/ns0")
      { allSucceed with unshareRet := -1, unshareErrno := EPERM } 0 (by decide) (by decide)).2.2.2⟩

/-! ## Diagnostics -/

/-- C5, at the failing input. `orbit-network /nonexistent/ns` on a host where
that directory does not exist: `open` fails with `ENOENT`, `main` returns 1 and
the run consists of the `open` alone; nothing is written to standard error, so
no description of the error reaches the user. -/
theorem open_failure_is_silent :
    (main linux freshHost (invoke "/nonexistent/ns")).status = 1 ∧
    (main linux freshHost (invoke "/nonexistent/ns")).trace =
      [Event.sys (Call.open_ (some "/nonexistent/ns") openFlags) (-1)] ∧
    (main linux freshHost (invoke "/nonexistent/ns")).final.errno = ENOENT ∧
    stderrOf (main linux freshHost (invoke "/nonexistent/ns")).trace = [] := by
  decide

/-- The silence of the `open` failure path is general: whenever `open` returns
a negative value, the only thing standard error can hold is the usage line,
which is there exactly when the argument count is wrong. -/
theorem open_failure_stderr (v : Argv) (o : Outcomes) (e0 : Int) (h : o.openRet < 0) :
    stderrOf (main (scripted o) e0 v).trace = if v.argc ≠ 2 then [usageMsg] else [] := by
  unfold main
  simp only [scripted]
  split_ifs <;> simp_all [stderrOf]

/-- The sibling path for `unshare`: when it reports an error (returns `-1` and
sets `errno`), the last thing the run does is to write `strerror(errno)` of that
error followed by `: clone failed` to standard error. -/
theorem unshare_failure_reports (v : Argv) (o : Outcomes) (e0 : Int)
    (hopen : 0 ≤ o.openRet) (hunshare : o.unshareRet = -1) :
    (main (scripted o) e0 v).trace.getLast? =
      some (Event.stderr (o.strerror o.unshareErrno ++ ": clone failed")) := by
  unfold main
  simp only [scripted]
  split_ifs <;> simp_all [setErrno, cloneFailedMsg] <;> omega

/-- The sibling path for `mount`: when it reports an error (returns `-1` and
sets `errno`), the last thing the run does is to write `strerror(errno)` of that
error followed by `: clone failed` to standard error. -/
theorem mount_failure_reports (v : Argv) (o : Outcomes) (e0 : Int)
    (hopen : 0 ≤ o.openRet) (hunshare : o.unshareRet = 0) (hmount : o.mountRet = -1) :
    (main (scripted o) e0 v).trace.getLast? =
      some (Event.stderr (o.strerror o.mountErrno ++ ": clone failed")) := by
  unfold main
  simp only [scripted]
  split_ifs <;> simp_all [setErrno, cloneFailedMsg] <;> omega

/-! ## Argument handling -/

/-- C6. The usage line is written exactly when `argc` is not 2, and writing it
does not end the run: whatever `argc` is, the run goes on to `open` `argv[1]`.
With `argc` different from 2 the usage line is the one event before that `open`;
with `argc` equal to 2 nothing precedes the `open`. -/
theorem usage_line_iff_and_run_continues {σ : Type} (K : Sys σ) (s0 : σ) (v : Argv) :
    (usageMsg ∈ stderrOf (main K s0 v).trace ↔ v.argc ≠ 2) ∧
    (v.argc ≠ 2 → ∃ ret rest, (main K s0 v).trace =
        Event.stderr usageMsg :: Event.sys (Call.open_ (v.get 1) openFlags) ret :: rest) ∧
    (v.argc = 2 → ∃ ret rest, (main K s0 v).trace =
        Event.sys (Call.open_ (v.get 1) openFlags) ret :: rest) := by
  have hne := fun d => Ne.symm (cloneFailedMsg_ne_usageMsg d)
  unfold main
  simp only []
  split_ifs <;> simp_all [stderrOf]

/-- C7. With no path argument (`argc = 1`) or with two or more (`argc ≥ 3`):
index 1 lies inside the argument vector; the run ends in a return of 0 or 1;
with `argc = 1` the path is the terminating null pointer; with `argc ≥ 3` the
run has the status, the final state and the trace of the invocation with the
single argument `argv[1]`, but for the usage line written first. -/
theorem wrong_argument_count_is_safe {σ : Type} (K : Sys σ) (s0 : σ) (v : Argv)
    (h : v.argc = 1 ∨ 3 ≤ v.argc) :
    v.inVector 1 ∧
    ((main K s0 v).status = 0 ∨ (main K s0 v).status = 1) ∧
    (v.argc = 1 → v.get 1 = none) ∧
    (3 ≤ v.argc → ∃ x, v.args[1]? = some x ∧ v.get 1 = some x ∧
      ∀ (name : String) (past : CStr),
        (main K s0 v).status = (main K s0 ⟨[name, x], past⟩).status ∧
        (main K s0 v).final = (main K s0 ⟨[name, x], past⟩).final ∧
        (main K s0 v).trace =
          Event.stderr usageMsg :: (main K s0 ⟨[name, x], past⟩).trace) := by
  refine ⟨?_, ?_, ?_, ?_⟩
  · unfold Argv.inVector; omega
  · unfold main
    simp only []
    split_ifs <;> simp
  · intro h1
    obtain ⟨args, past⟩ := v
    simp only [Argv.argc] at h1
    have hlen : args.length = 1 := by exact_mod_cast h1
    simp [Argv.get, hlen]
  · intro h3
    obtain ⟨args, past⟩ := v
    simp only [Argv.argc] at h3
    match args, h3 with
    | [], h3 => simp at h3
    | [_], h3 => simp at h3
    | a :: x :: rest, h3 =>
      refine ⟨x, by simp, by simp [Argv.get], ?_⟩
      intro name past2
      have hv : (Argv.mk (a :: x :: rest) past).argc ≠ 2 := by
        simp only [Argv.argc] at h3 ⊢; omega
      have hw : (Argv.mk [name, x] past2).argc = 2 := by simp [Argv.argc]
      have gv : (Argv.mk (a :: x :: rest) past).get 1 = some x := by simp [Argv.get]
      have gw : (Argv.mk [name, x] past2).get 1 = some x := by simp [Argv.get]
      unfold main
      simp only [hv, hw, gv, gw, ne_eq, not_true_eq_false, not_false_eq_true, if_true, if_false]
      split_ifs <;> simp

/-- Witness of `wrong_argument_count_is_safe`: `orbit-network /run/ns0 /run/ns1`. -/
theorem wrong_argument_count_is_safe_witness :
    (twoPaths.argc = 1 ∨ 3 ≤ twoPaths.argc) ∧
    twoPaths.inVector 1 ∧
    ((main linux freshHost twoPaths).status = 0 ∨ (main linux freshHost twoPaths).status = 1) ∧
    (main linux freshHost twoPaths).trace =
      Event.stderr usageMsg :: (main linux freshHost (invoke "/run/ns0")).trace :=
  ⟨by decide,
    (wrong_argument_count_is_safe linux freshHost twoPaths (by decide)).1,
    (wrong_argument_count_is_safe linux freshHost twoPaths (by decide)).2.1,
    by decide⟩

/-! ## Order of the system calls -/

/-- C9, as stated, fails when `close` reports an error: with `open` returning
3, `close` returning `-1` and `unshare` and `mount` returning 0, the calls of the
run are `open`, `close`, `unshare`, `mount`; the `close` failed and two calls
follow it. -/
theorem call_follows_failed_close :
    calls (main (scripted closeFails) 0 (invoke "/run/ns0")).trace =
      [(Call.open_ (some "/run/ns0") openFlags, 3),
       (Call.close 3, -1),
       (Call.unshare CLONE_NEWNET, 0),
       (Call.mount (some "/proc/self/ns/net") (some "/run/ns0") (some "none") MS_BIND none, 0)] ∧
    failed (Call.close 3, -1) = true ∧
    noCallAfter failed (calls (main (scripted closeFails) 0 (invoke "/run/ns0")).trace) = false := by
  decide

/-- C9, amended. For every argument vector and every combination of return
values, the kinds of the calls of the run form a non-empty initial segment of
`open`, `close`, `unshare`, `mount`; no kind occurs twice; `close` is issued
exactly when `open` succeeded, and on the descriptor `open` returned; `unshare`
is issued exactly when `open` succeeded, whatever `close` returned; `mount` is
issued exactly when `open` and `unshare` succeeded; and no call follows a failed
`open`, `unshare` or `mount`. -/
theorem call_sequence (v : Argv) (o : Outcomes) (e0 : Int) :
    kinds (main (scripted o) e0 v).trace ≠ [] ∧
    kinds (main (scripted o) e0 v).trace <+: programOrder ∧
    (∀ k, (kinds (main (scripted o) e0 v).trace).count k ≤ 1) ∧
    (Kind.close ∈ kinds (main (scripted o) e0 v).trace ↔ 0 ≤ o.openRet) ∧
    (∀ fd r, (Call.close fd, r) ∈ calls (main (scripted o) e0 v).trace → fd = o.openRet) ∧
    (Kind.unshare ∈ kinds (main (scripted o) e0 v).trace ↔ 0 ≤ o.openRet) ∧
    (Kind.mount ∈ kinds (main (scripted o) e0 v).trace ↔ 0 ≤ o.openRet ∧ o.unshareRet = 0) ∧
    noCallAfter failedChecked (calls (main (scripted o) e0 v).trace) = true := by
  unfold main
  simp only [scripted]
  split_ifs <;>
    simp_all [kinds, calls, Call.kind, programOrder, noCallAfter, failedChecked, failed,
      List.count_cons, List.prefix_cons_iff] <;>
    first
      | omega
      | (intro k; cases k <;> simp)

/-! ## Arguments of the calls -/

/-- C10. In every run, on every system: a `mount` that is invoked has source
`/proc/self/ns/net`, flags `MS_BIND`, a null data argument and, as target,
`argv[1]`, the path the run passed to `open` before; every `open` of the run is
on that path; and an `unshare` that is invoked asks for `CLONE_NEWNET` and
nothing else. -/
theorem mount_and_unshare_arguments {σ : Type} (K : Sys σ) (s0 : σ) (v : Argv) :
    (∀ source target fstype flags data ret,
      Event.sys (Call.mount source target fstype flags data) ret ∈ (main K s0 v).trace →
        source = some "/proc/self/ns/net" ∧ flags = MS_BIND ∧ data = none ∧
        target = v.get 1 ∧
        (∃ fd, Event.sys (Call.open_ target openFlags) fd ∈ (main K s0 v).trace) ∧
        (∀ path fl fd, Event.sys (Call.open_ path fl) fd ∈ (main K s0 v).trace →
          path = target)) ∧
    (∀ flags ret, Event.sys (Call.unshare flags) ret ∈ (main K s0 v).trace →
      flags = CLONE_NEWNET) := by
  unfold main
  simp only []
  split_ifs <;> simp [nsSelf] <;> aesop

/-- Witness of `mount_and_unshare_arguments`: the successful run on the scripted
system issues the mount and the unshare the theorem speaks of. -/
theorem mount_and_unshare_arguments_witness :
    Event.sys (Call.mount (some "/proc/self/ns/net") (some "/run/ns0") (some "none") 4096 none) 0
        ∈ (main linux freshHost (invoke "/run/ns0")).trace ∧
    Event.sys (Call.unshare 0x40000000) 0 ∈ (main linux freshHost (invoke "/run/ns0")).trace ∧
    ((some "/proc/self/ns/net" : CStr) = some "/proc/self/ns/net" ∧ 4096 = MS_BIND ∧
      (none : CStr) = none ∧ (some "/run/ns0" : CStr) = (invoke "/run/ns0").get 1 ∧
      (∃ fd, Event.sys (Call.open_ (some "/run/ns0") openFlags) fd
          ∈ (main linux freshHost (invoke "/run/ns0")).trace) ∧
      (∀ path fl fd, Event.sys (Call.open_ path fl) fd
          ∈ (main linux freshHost (invoke "/run/ns0")).trace → path = some "/run/ns0")) ∧
    0x40000000 = CLONE_NEWNET :=
  ⟨by decide, by decide,
    (mount_and_unshare_arguments linux freshHost (invoke "/run/ns0")).1
      (some "/proc/self/ns/net") (some "/run/ns0") (some "none") 4096 none 0 (by decide),
    (mount_and_unshare_arguments linux freshHost (invoke "/run/ns0")).2 0x40000000 0 (by decide)⟩

/-! ## The Linux model -/

/-- A failed call of the model changes nothing but `errno`. -/
theorem Kernel.fail_fields (k : Kernel) (e : Int) :
    (k.fail e).1 = -1 ∧ (k.fail e).2.nodes = k.nodes ∧ (k.fail e).2.curNs = k.curNs ∧
    (k.fail e).2.mounts = k.mounts ∧ (k.fail e).2.privileged = k.privileged := by
  simp [Kernel.fail]

/-- The model's `open` leaves namespaces, mounts and privilege alone, and returns
`-1` or a non-negative descriptor. -/
theorem linuxOpen_frame (k : Kernel) (path : CStr) (flags : Nat) :
    (linuxOpen k path flags).2.curNs = k.curNs ∧
    (linuxOpen k path flags).2.mounts = k.mounts ∧
    (linuxOpen k path flags).2.privileged = k.privileged := by
  unfold linuxOpen
  split
  · simp [Kernel.fail]
  · split <;> (split_ifs <;> simp [Kernel.fail])

/-- The model's `open` of the null pointer fails. -/
theorem linuxOpen_null (k : Kernel) (flags : Nat) : (linuxOpen k none flags).1 = -1 := by
  simp [linuxOpen, Kernel.fail]

/-- The model's `close` leaves files, namespaces, mounts and privilege alone. -/
theorem linuxClose_frame (k : Kernel) (fd : Int) :
    (linuxClose k fd).2.nodes = k.nodes ∧
    (linuxClose k fd).2.curNs = k.curNs ∧
    (linuxClose k fd).2.mounts = k.mounts ∧
    (linuxClose k fd).2.privileged = k.privileged := by
  unfold linuxClose
  split_ifs <;> simp [Kernel.fail]

/-- The model's `unshare` leaves files and mounts alone, and when it returns 0
for `CLONE_NEWNET` the caller is in the namespace just allocated. -/
theorem linuxUnshare_frame (k : Kernel) :
    (linuxUnshare k CLONE_NEWNET).2.nodes = k.nodes ∧
    (linuxUnshare k CLONE_NEWNET).2.mounts = k.mounts ∧
    (linuxUnshare k CLONE_NEWNET).2.privileged = k.privileged ∧
    ((linuxUnshare k CLONE_NEWNET).1 = 0 → (linuxUnshare k CLONE_NEWNET).2.curNs = k.freshNs) := by
  unfold linuxUnshare
  split_ifs <;> simp [Kernel.fail]

/-- The model's `mount` leaves files and the caller's namespace alone, and when
it returns 0 for the source `/proc/self/ns/net` the target is a path and the
caller's namespace is on top of the mount stack. -/
theorem linuxMount_frame (k : Kernel) (target fstype data : CStr) (flags : Nat) :
    (linuxMount k (some nsSelf) target fstype flags data).2.nodes = k.nodes ∧
    (linuxMount k (some nsSelf) target fstype flags data).2.curNs = k.curNs ∧
    ((linuxMount k (some nsSelf) target fstype flags data).1 = 0 →
      ∃ p, target = some p ∧
        (linuxMount k (some nsSelf) target fstype flags data).2.mounts =
          (p, k.curNs) :: k.mounts) := by
  unfold linuxMount
  cases target with
  | none => split_ifs <;> simp [Kernel.fail]
  | some tgt =>
    simp only []
    split_ifs <;> try simp [Kernel.fail]
    split <;> simp [Kernel.fail]

/-- The namespace the kernel allocates next is not one the state refers to. -/
theorem Kernel.freshNs_not_used (k : Kernel) : k.freshNs ∉ k.usedNs := by
  have hle : ∀ (l : List Nat) (n : Nat), n ∈ l → n ≤ l.foldr max 0 := by
    intro l
    induction l with
    | nil => intro n hn; simp at hn
    | cons a t ih =>
      intro n hn
      simp only [List.foldr_cons]
      rcases List.mem_cons.mp hn with rfl | hn
      · exact le_max_left _ _
      · exact le_trans (ih n hn) (le_max_right _ _)
  intro hmem
  have := hle _ _ hmem
  unfold Kernel.freshNs at this
  omega

/-- A successful run went through all four calls, each with the result the
source tests for, and ends in the state the `mount` left. -/
theorem main_success {σ : Type} (K : Sys σ) (s0 : σ) (v : Argv)
    (h : (main K s0 v).status = 0) :
    0 ≤ (K.sysOpen s0 (v.get 1) openFlags).1 ∧
    (K.sysUnshare (K.sysClose (K.sysOpen s0 (v.get 1) openFlags).2
        (K.sysOpen s0 (v.get 1) openFlags).1).2 CLONE_NEWNET).1 = 0 ∧
    (K.sysMount (K.sysUnshare (K.sysClose (K.sysOpen s0 (v.get 1) openFlags).2
        (K.sysOpen s0 (v.get 1) openFlags).1).2 CLONE_NEWNET).2
        (some nsSelf) (v.get 1) (some "none") MS_BIND none).1 = 0 ∧
    (main K s0 v).final =
      (K.sysMount (K.sysUnshare (K.sysClose (K.sysOpen s0 (v.get 1) openFlags).2
        (K.sysOpen s0 (v.get 1) openFlags).1).2 CLONE_NEWNET).2
        (some nsSelf) (v.get 1) (some "none") MS_BIND none).2 ∧
    Event.sys (Call.unshare CLONE_NEWNET) 0 ∈ (main K s0 v).trace := by
  unfold main at h ⊢
  simp only [] at h ⊢
  split_ifs at h ⊢ <;> simp_all

/-- The next namespace identifier depends on the caller's namespace and the
mounts only. -/
theorem Kernel.freshNs_congr (a b : Kernel) (hc : a.curNs = b.curNs)
    (hm : a.mounts = b.mounts) : a.freshNs = b.freshNs := by
  simp [Kernel.freshNs, Kernel.usedNs, hc, hm]

/-- C4. On the Linux model, from every initial state and for every argument
vector: if `main` returns 0 then `argv[1]` is a path `p`, the `unshare` of the
run succeeded, the process ends in the namespace the kernel allocated for it
(`k.freshNs`), and that namespace is the top-most mount at `p`.  It is not the
namespace the caller started in and not one that was mounted at `p` (or
anywhere) before; what was mounted at `p` before is still there, underneath. -/
theorem published_namespace_is_fresh (k : Kernel) (v : Argv)
    (h : (main linux k v).status = 0) :
    ∃ p, v.get 1 = some p ∧
      Event.sys (Call.unshare CLONE_NEWNET) 0 ∈ (main linux k v).trace ∧
      (main linux k v).final.curNs = k.freshNs ∧
      (main linux k v).final.topMount p = some k.freshNs ∧
      k.freshNs ≠ k.curNs ∧
      k.freshNs ∉ k.mountedAt p ∧
      (∀ m ∈ k.mounts, m.2 ≠ k.freshNs) ∧
      (main linux k v).final.mountedAt p = k.freshNs :: k.mountedAt p ∧
      (main linux k v).final.mounts = (p, k.freshNs) :: k.mounts := by
  obtain ⟨_, hu, hm, hfin, hev⟩ := main_success linux k v h
  have e1 : linux.sysOpen = linuxOpen := rfl
  have e2 : linux.sysClose = linuxClose := rfl
  have e3 : linux.sysUnshare = linuxUnshare := rfl
  have e4 : linux.sysMount = linuxMount := rfl
  simp only [e1, e2, e3, e4] at hu hm hfin
  obtain ⟨oc, om, _⟩ := linuxOpen_frame k (v.get 1) openFlags
  obtain ⟨_, cc, cm, _⟩ :=
    linuxClose_frame (linuxOpen k (v.get 1) openFlags).2 (linuxOpen k (v.get 1) openFlags).1
  obtain ⟨_, um, _, uc⟩ :=
    linuxUnshare_frame
      (linuxClose (linuxOpen k (v.get 1) openFlags).2 (linuxOpen k (v.get 1) openFlags).1).2
  obtain ⟨_, mc, mm⟩ :=
    linuxMount_frame
      (linuxUnshare
        (linuxClose (linuxOpen k (v.get 1) openFlags).2 (linuxOpen k (v.get 1) openFlags).1).2
        CLONE_NEWNET).2 (v.get 1) (some "none") none MS_BIND
  obtain ⟨p, hp, hmounts⟩ := mm hm
  have hfresh :
      (linuxClose (linuxOpen k (v.get 1) openFlags).2
        (linuxOpen k (v.get 1) openFlags).1).2.freshNs = k.freshNs :=
    Kernel.freshNs_congr _ _ (cc.trans oc) (cm.trans om)
  have hcur : (main linux k v).final.curNs = k.freshNs := by
    rw [hfin, mc, uc hu, hfresh]
  have hmnt : (main linux k v).final.mounts = (p, k.freshNs) :: k.mounts := by
    rw [hfin, hmounts, uc hu, hfresh, um, cm, om]
  have hnot := Kernel.freshNs_not_used k
  have hall : ∀ m ∈ k.mounts, m.2 ≠ k.freshNs := by
    intro m hmem heq
    apply hnot
    simp only [Kernel.usedNs, List.mem_cons, List.mem_map]
    exact Or.inr ⟨m, hmem, heq⟩
  have hat : (main linux k v).final.mountedAt p = k.freshNs :: k.mountedAt p := by
    simp [Kernel.mountedAt, hmnt, List.filter_cons]
  refine ⟨p, hp, hev, hcur, ?_, ?_, ?_, hall, hat, hmnt⟩
  · simp [Kernel.topMount, hat]
  · intro heq
    apply hnot
    simp [Kernel.usedNs, heq]
  · intro hmem
    simp only [Kernel.mountedAt, List.mem_map, List.mem_filter] at hmem
    obtain ⟨m, ⟨hm1, _⟩, hm2⟩ := hmem
    exact hall m hm1 hm2

/-- Witness of `published_namespace_is_fresh`: a run on a host where namespace 7
is already mounted on `/run/ns0` and the caller is in namespace 1.  The run
returns 0, allocates namespace 8 and mounts it on top of 7. -/
theorem published_namespace_is_fresh_witness :
    (main linux hostWithMount (invoke "/run/ns0")).status = 0 ∧
    hostWithMount.freshNs = 8 ∧
    (main linux hostWithMount (invoke "/run/ns0")).final.mounts =
      [("/run/ns0", 8), ("/run/ns0", 7)] ∧
    (∃ p, (invoke "/run/ns0").get 1 = some p ∧
      Event.sys (Call.unshare CLONE_NEWNET) 0 ∈
        (main linux hostWithMount (invoke "/run/ns0")).trace ∧
      (main linux hostWithMount (invoke "/run/ns0")).final.curNs = hostWithMount.freshNs ∧
      (main linux hostWithMount (invoke "/run/ns0")).final.topMount p =
        some hostWithMount.freshNs ∧
      hostWithMount.freshNs ≠ hostWithMount.curNs ∧
      hostWithMount.freshNs ∉ hostWithMount.mountedAt p ∧
      (∀ m ∈ hostWithMount.mounts, m.2 ≠ hostWithMount.freshNs) ∧
      (main linux hostWithMount (invoke "/run/ns0")).final.mountedAt p =
        hostWithMount.freshNs :: hostWithMount.mountedAt p ∧
      (main linux hostWithMount (invoke "/run/ns0")).final.mounts =
        (p, hostWithMount.freshNs) :: hostWithMount.mounts) :=
  ⟨by decide, by decide, by decide,
    published_namespace_is_fresh hostWithMount (invoke "/run/ns0") (by decide)⟩

/-! ## Reuse of an existing file -/

/-- The flags of the `open`: exactly `O_RDWR | O_CREAT`, without `O_EXCL` and
without `O_TRUNC`. -/
theorem openFlags_bits :
    openFlags = O_RDWR ||| O_CREAT ∧ openFlags &&& O_EXCL = 0 ∧ openFlags &&& O_TRUNC = 0 ∧
    openFlags &&& O_CREAT ≠ 0 ∧ openFlags &&& O_ACCMODE = O_RDWR := by
  decide

/-- The model's `open` with the flags of the source, on an existing regular file
the caller may read and write: a descriptor is returned and nothing but the
descriptor table changes. -/
theorem linuxOpen_existing (k : Kernel) (p : String) (f : File)
    (hf : k.lookup p = some (Node.file f)) (hr : f.mayRead = true) (hw : f.mayWrite = true) :
    linuxOpen k (some p) openFlags =
      ((k.freeFd : Int), { k with fds := (k.freeFd : Int) :: k.fds }) := by
  obtain ⟨_, hx, ht, hc, ha⟩ := openFlags_bits
  simp [linuxOpen, hf, hr, hw, hx, ht, wantsRead, wantsWrite, ha, O_RDWR, O_WRONLY, O_RDONLY]

/-- C8. The `open` of the run uses the flags `O_RDWR | O_CREAT`, which contain
neither `O_EXCL` nor `O_TRUNC`.  On the Linux model, when `argv[1]` names an
existing regular file the caller may read and write, the `open` returns a
non-negative descriptor, the run goes on to close it and to call `unshare`, and
at the end of the run the path still names the same file with the same bytes. -/
theorem existing_file_is_reused (k : Kernel) (v : Argv) (p : String) (f : File)
    (hp : v.get 1 = some p) (hf : k.lookup p = some (Node.file f))
    (hr : f.mayRead = true) (hw : f.mayWrite = true) :
    (O_RDWR ||| O_CREAT) &&& O_EXCL = 0 ∧ (O_RDWR ||| O_CREAT) &&& O_TRUNC = 0 ∧
    (∀ path flags fd, Event.sys (Call.open_ path flags) fd ∈ (main linux k v).trace →
      flags = O_RDWR ||| O_CREAT) ∧
    (∃ fd cret uret rest, 0 ≤ fd ∧
      (main linux k v).trace =
        (if v.argc ≠ 2 then [Event.stderr usageMsg] else []) ++
          Event.sys (Call.open_ (some p) (O_RDWR ||| O_CREAT)) fd ::
            Event.sys (Call.close fd) cret :: Event.sys (Call.unshare CLONE_NEWNET) uret :: rest) ∧
    (main linux k v).final.lookup p = some (Node.file f) ∧
    (main linux k v).final.nodes = k.nodes := by
  have ho := linuxOpen_existing k p f hf hr hw
  have hnodes : (main linux k v).final.nodes = k.nodes := by
    unfold main
    simp only [linux, hp, ho]
    split_ifs <;>
      simp [(linuxMount_frame _ _ _ _ _).1, (linuxUnshare_frame _).1, (linuxClose_frame _ _).1]
  refine ⟨by decide, by decide, ?_, ?_, ?_, hnodes⟩
  · unfold main
    simp only []
    split_ifs <;> simp [openFlags] <;> aesop
  · have hfd : ¬ ((k.freeFd : Int) < 0) := by omega
    unfold main
    simp only [linux, hp, ho, hfd, if_false]
    simp only [openFlags]
    split_ifs <;> exact ⟨_, _, _, _, Int.natCast_nonneg _, rfl⟩
  · simp [Kernel.lookup, hnodes] at hf ⊢
    exact hf

/-- Witness of `existing_file_is_reused`: `/run/ns0` exists with three bytes and
may be read and written; the run opens it, goes on to `unshare`, and the three
bytes are still there at the end. -/
theorem existing_file_is_reused_witness :
    (invoke "/run/ns0").get 1 = some "/run/ns0" ∧
    hostWithMount.lookup "/run/ns0" = some (Node.file ⟨[110, 115, 48], true, true⟩) ∧
    (∃ fd cret uret rest, 0 ≤ fd ∧
      (main linux hostWithMount (invoke "/run/ns0")).trace =
        (if (invoke "/run/ns0").argc ≠ 2 then [Event.stderr usageMsg] else []) ++
          Event.sys (Call.open_ (some "/run/ns0") (O_RDWR ||| O_CREAT)) fd ::
            Event.sys (Call.close fd) cret ::
              Event.sys (Call.unshare CLONE_NEWNET) uret :: rest) ∧
    (main linux hostWithMount (invoke "/run/ns0")).final.lookup "/run/ns0" =
      some (Node.file ⟨[110, 115, 48], true, true⟩) :=
  ⟨by decide, by decide,
    (existing_file_is_reused hostWithMount (invoke "/run/ns0") "/run/ns0"
      ⟨[110, 115, 48], true, true⟩ (by decide) (by decide) rfl rfl).2.2.2.1,
    (existing_file_is_reused hostWithMount (invoke "/run/ns0") "/run/ns0"
      ⟨[110, 115, 48], true, true⟩ (by decide) (by decide) rfl rfl).2.2.2.2.1⟩

/-! ## The failure paths on the Linux model -/

/-- On the Linux model, a run whose `open` fails leaves files, namespaces and
mounts as they were: no namespace is created and nothing is mounted. -/
theorem linux_open_failure_changes_nothing (k : Kernel) (v : Argv)
    (h : (linuxOpen k (v.get 1) openFlags).1 < 0) :
    (main linux k v).status = 1 ∧
    (main linux k v).final.curNs = k.curNs ∧
    (main linux k v).final.mounts = k.mounts := by
  obtain ⟨oc, om, _⟩ := linuxOpen_frame k (v.get 1) openFlags
  unfold main
  simp only [linux, h, if_true]
  exact ⟨trivial, oc, om⟩

/-- On the Linux model, a run of an unprivileged process whose `open` succeeds
returns 1, mounts nothing, stays in its namespace, and leaves the files as the
`open` left them: a file the `open` created is still there. -/
theorem linux_unprivileged_run_keeps_file (k : Kernel) (v : Argv)
    (hopen : 0 ≤ (linuxOpen k (v.get 1) openFlags).1) (hpriv : k.privileged = false) :
    (main linux k v).status = 1 ∧
    (main linux k v).final.nodes = (linuxOpen k (v.get 1) openFlags).2.nodes ∧
    (main linux k v).final.curNs = k.curNs ∧
    (main linux k v).final.mounts = k.mounts := by
  obtain ⟨oc, om, op⟩ := linuxOpen_frame k (v.get 1) openFlags
  obtain ⟨cn, cc, cm, cp⟩ :=
    linuxClose_frame (linuxOpen k (v.get 1) openFlags).2 (linuxOpen k (v.get 1) openFlags).1
  have hp2 : (linuxClose (linuxOpen k (v.get 1) openFlags).2
      (linuxOpen k (v.get 1) openFlags).1).2.privileged = false := by
    rw [cp, op, hpriv]
  have hu : linuxUnshare (linuxClose (linuxOpen k (v.get 1) openFlags).2
      (linuxOpen k (v.get 1) openFlags).1).2 CLONE_NEWNET =
      Kernel.fail (linuxClose (linuxOpen k (v.get 1) openFlags).2
        (linuxOpen k (v.get 1) openFlags).1).2 EPERM := by
    simp [linuxUnshare, hp2]
  have hlt : ¬ (linuxOpen k (v.get 1) openFlags).1 < 0 := by omega
  unfold main
  simp only [linux, hlt, if_false, hu]
  simp [Kernel.fail, cn, cc, cm, oc, om]

/-! ## The argument vector at its edges -/

/-- The run of `orbit-network` without a path on the Linux model: the usage line
is written, `open` is handed the null pointer and fails with `EFAULT`, and `main`
returns 1 after that one call. -/
theorem no_path_run :
    noPath.argc = 1 ∧ noPath.get 1 = none ∧
    (main linux freshHost noPath).status = 1 ∧
    (main linux freshHost noPath).trace =
      [Event.stderr usageMsg, Event.sys (Call.open_ none openFlags) (-1)] ∧
    (main linux freshHost noPath).final.errno = EFAULT := by
  decide

/-- Index 1 is inside the argument vector exactly when `argc` is at least 1.
With an empty argument list (`argc = 0`) the read of `argv[1]` goes beyond the
vector and yields `past`; the statements on `main` above hold for that value
too, whatever it is. -/
theorem inVector_one_iff (v : Argv) :
    (v.inVector 1 ↔ 1 ≤ v.argc) ∧ (v.argc = 0 → v.get 1 = v.past) := by
  refine ⟨by unfold Argv.inVector; omega, ?_⟩
  intro h0
  have hlen : v.args.length = 0 := by
    simp only [Argv.argc] at h0
    exact_mod_cast h0
  simp [Argv.get, hlen]

end OrbitNetwork
